import Mathlib

/-
Verification of the ingestion adapter in pkg/server/ingest.go.

The file is shallowly embedded: external collaborators (the tree, the
format decoders, the segment-key parser, the time resolver, the storage
ingester, the buffer pool, the stats sinks) are modelled as abstract
behaviours carried in a Controller record, and the two functions of the
source file, ingestParamsFromRequest and ingestHandler, are translated
into pure Lean functions over those behaviours.  The handler is modelled
as a function producing the list of observable events it performs, in
source order.
-/

namespace Ingest

/-- Points in time; time.Time is opaque to this adapter, modelled as Int. -/
abbrev Time := Int

/-- Raw request-body bytes (io.Reader contents). -/
abbrev ByteStream := List Nat

/-- A scratch buffer's byte contents (the .B field of a pool buffer). -/
abbrev Buf := List Nat

/-- A stack key handed to the insert callback ([]byte). -/
abbrev Key := List Nat

/-- Model of the external tree.Tree collaborator: the log of Insert calls,
in order, each with the key and the (already uint64-converted) count.
tree.New() is the empty log and Insert appends. -/
abbrev Tree := List (Key × Nat)

/-- Model of tree.New(). -/
def Tree.new : Tree := []

/-- Model of t.Insert(k, v): record the insertion. -/
def Tree.insert (t : Tree) (k : Key) (v : Nat) : Tree := t ++ [(k, v)]

/-- Go uint64(v) conversion of an int: two's-complement truncation. -/
def uint64cast (v : Int) : Nat := (v % ((2 : Int) ^ 64)).toNat

/-- Go uint32(v) conversion of an int: two's-complement truncation. -/
def uint32cast (v : Int) : Nat := (v % ((2 : Int) ^ 32)).toNat

/-- Behaviour of a callback-style decoder on one input: the (key, count)
pairs it delivers to the callback, in order, before returning, and the
error it returns (none on success).  Counts are Go ints. -/
structure CbResult where
  pairs : List (Key × Int)
  err : Option String
deriving DecidableEq

/-- convertFunc: decoder taking a reader and a callback (no buffer). -/
abbrev ConvertFunc := ByteStream → CbResult

/-- convertFuncBuf: decoder taking a reader, a scratch buffer and a callback. -/
abbrev ConvertFuncBuf := ByteStream → Buf → CbResult

/-- convertFuncReader: decoder taking only a reader and returning a tree
(possibly nil) and an error. -/
abbrev ConvertFuncReader := ByteStream → Option Tree × Option String

/-- parserFunc: the canonical contract func(io.Reader, []byte) (*tree.Tree, error). -/
abbrev ParserFunc := ByteStream → Buf → Option Tree × Option String

/-- Model of treeInsert(t): the callback inserts each delivered pair with the
count converted by uint64(). -/
def treeInsert (t : Tree) (k : Key) (v : Int) : Tree := t.insert k (uint64cast v)

/-- The tree built by running the insert callback over every pair a
callback-style decoder delivers, starting from tree.New(). -/
def buildTree (ps : List (Key × Int)) : Tree :=
  ps.foldl (fun t p => treeInsert t p.1 p.2) Tree.new

/-- wrapConvertFunction: adapter for a callback decoder without a buffer.
Allocates a fresh tree, runs the decoder with the insert callback (the
scratch-buffer argument is ignored) and returns the tree with the error. -/
def wrapConvertFunction (f : ConvertFunc) : ParserFunc :=
  fun r _ => (some (buildTree (f r).pairs), (f r).err)

/-- wrapConvertFunctionBuf: adapter for a callback decoder with a buffer.
Allocates a fresh tree, forwards the caller's scratch buffer to the decoder,
runs it with the insert callback and returns the tree with the error. -/
def wrapConvertFunctionBuf (f : ConvertFuncBuf) : ParserFunc :=
  fun r tmpBuf => (some (buildTree (f r tmpBuf).pairs), (f r tmpBuf).err)

/-- wrapConvertFunctionReader: adapter for a direct-tree decoder. Passes the
stream through and discards the buffer. -/
def wrapConvertFunctionReader (f : ConvertFuncReader) : ParserFunc :=
  fun r _ => f r

/-- Model of the external segment.Key collaborator: its raw form and the
application name exposed by AppName(). -/
structure SegKey where
  raw : String
  appName : String
deriving DecidableEq

/-- Which of the four concrete decoders the switch in ingestParamsFromRequest
selects. -/
inductive DecoderSelector where
  | binaryTree
  | trie
  | lines
  | groups
deriving DecidableEq

/-- ingestParams: the resolved ingestion context.  parserFunc is represented
by the selector of the decoder it wraps; from/until are fromTime/untilTime. -/
structure IngestParams where
  selector : DecoderSelector
  storageKey : SegKey
  spyName : String
  sampleRate : Nat
  units : String
  aggregationType : String
  modifiers : List String
  fromTime : Time
  untilTime : Time
deriving DecidableEq

/-- storage.PutInput as assembled by the handler. -/
structure PutInput where
  startTime : Time
  endTime : Time
  key : SegKey
  val : Option Tree
  spyName : String
  sampleRate : Nat
  units : String
  aggregationType : String
deriving DecidableEq

/-- The Controller together with the behaviours of every external
collaborator the two source functions call. -/
structure Controller where
  treeDecoder : ConvertFuncReader
  trieDecoder : ConvertFuncBuf
  linesDecoder : ConvertFunc
  groupsDecoder : ConvertFunc
  parseKey : String → Except String SegKey
  attimeParse : String → Time
  now1 : Time
  now2 : Time
  defaultSampleRate : Nat
  ingesterPut : PutInput → Option String
  hashString : String → Nat
  bufferPool : Buf

/-- An HTTP request as consumed by the handler: q.Get (empty string when the
parameter is absent, as in net/url), the Content-Type header, and the body. -/
structure Request where
  query : String → String
  contentType : String
  body : ByteStream

/-- The switch in ingestParamsFromRequest, lines 102-111: first match wins. -/
def selectDecoder (format contentType : String) : DecoderSelector :=
  if format = "tree" ∨ contentType = "binary/octet-stream+tree" then .binaryTree
  else if format = "trie" ∨ contentType = "binary/octet-stream+trie" then .trie
  else if format = "lines" then .lines
  else .groups

/-- The parserFunc the switch assigns for each selected decoder. -/
def parserFuncOf (c : Controller) : DecoderSelector → ParserFunc
  | .binaryTree => wrapConvertFunctionReader c.treeDecoder
  | .trie => wrapConvertFunctionBuf c.trieDecoder
  | .lines => wrapConvertFunction c.linesDecoder
  | .groups => wrapConvertFunction c.groupsDecoder

/-- Digit run accumulator for atoi. -/
def parseDigitsAux : List Char → Nat → Option Nat
  | [], acc => some acc
  | c :: cs, acc =>
    if c.isDigit then parseDigitsAux cs (acc * 10 + (c.toNat - 48)) else none

/-- Model of strconv.Atoi on a 64-bit platform: optional sign, a nonempty
run of decimal digits, error on any other character, on the empty string and
on int64 overflow. -/
def atoi (s : String) : Option Int :=
  match s.data with
  | [] => none
  | '+' :: ds =>
    if ds = [] then none else
      (parseDigitsAux ds 0).bind (fun n =>
        if (n : Int) ≤ (2 : Int) ^ 63 - 1 then some (n : Int) else none)
  | '-' :: ds =>
    if ds = [] then none else
      (parseDigitsAux ds 0).bind (fun n =>
        if (n : Int) ≤ (2 : Int) ^ 63 then some (-(n : Int)) else none)
  | ds =>
    (parseDigitsAux ds 0).bind (fun n =>
      if (n : Int) ≤ (2 : Int) ^ 63 - 1 then some (n : Int) else none)

/-- Result of parameter resolution: the error messages logged (logrus calls)
and the returned error or the populated ingestParams. -/
structure ResolveOutcome where
  logs : List String
  result : Except String IngestParams

/-- Lines 125-135: the resolved sample rate together with the log entries
emitted while resolving it.  A present value is parsed with Atoi; parse
failure is logged and the default substituted; a parsed int is converted
with uint32(); an absent value takes the default. -/
def resolveSampleRate (c : Controller) (sr : String) : Nat × List String :=
  if sr ≠ "" then
    match atoi sr with
    | none => (c.defaultSampleRate, ["invalid sample rate: " ++ sr])
    | some z => (uint32cast z, [])
  else (c.defaultSampleRate, [])

/-- ingestParamsFromRequest, lines 98-162, translated statement by
statement.  On a malformed sampleRate the error is logged and the default is
substituted; the only returned error is the wrapped segment.ParseKey
failure on the name parameter. -/
def ingestParamsFromRequest (c : Controller) (r : Request) : ResolveOutcome :=
  let format := r.query "format"
  let selector := selectDecoder format r.contentType
  let fromTime := if r.query "from" ≠ "" then c.attimeParse (r.query "from") else c.now1
  let untilTime := if r.query "until" ≠ "" then c.attimeParse (r.query "until") else c.now2
  let srOut := resolveSampleRate c (r.query "sampleRate")
  let spyName := if r.query "spyName" ≠ "" then r.query "spyName" else "unknown"
  let units := if r.query "units" ≠ "" then r.query "units" else "samples"
  let aggregationType :=
    if r.query "aggregationType" ≠ "" then r.query "aggregationType" else "sum"
  match c.parseKey (r.query "name") with
  | .error e => ⟨srOut.2, .error ("name: " ++ e)⟩
  | .ok k =>
    ⟨srOut.2, .ok
      { selector := selector, storageKey := k, spyName := spyName,
        sampleRate := srOut.1, units := units,
        aggregationType := aggregationType, modifiers := [],
        fromTime := fromTime, untilTime := untilTime }⟩

/-- Observable events of one handled request, in the order the handler
performs them. -/
inductive Event where
  | acquireBuf
  | parseBody
  | releaseBuf
  | storagePut (input : PutInput)
  | respInvalidParam (msg : String)
  | respUnprocessable (msg : String)
  | respInternalError (msg : String)
  | statsInc (name : String)
  | appStatsAdd (h : Nat)
deriving DecidableEq

/-- The storage.PutInput the handler assembles on lines 77-86. -/
def putInputOf (c : Controller) (r : Request) (ip : IngestParams) : PutInput :=
  { startTime := ip.fromTime, endTime := ip.untilTime, key := ip.storageKey,
    val := (parserFuncOf c ip.selector r.body c.bufferPool).1,
    spyName := ip.spyName, sampleRate := ip.sampleRate, units := ip.units,
    aggregationType := ip.aggregationType }

/-- The handler body after parameter resolution succeeded (lines 67-96):
acquire a buffer, parse the body, release the buffer, then branch on the
parse error, the storage Put, and finally bump the three counters. -/
def handleWithParams (c : Controller) (r : Request) (ip : IngestParams) : List Event :=
  match (parserFuncOf c ip.selector r.body c.bufferPool).2 with
  | some _ =>
    [.acquireBuf, .parseBody, .releaseBuf,
     .respUnprocessable "error happened while parsing request body"]
  | none =>
    match c.ingesterPut (putInputOf c r ip) with
    | some _ =>
      [.acquireBuf, .parseBody, .releaseBuf, .storagePut (putInputOf c r ip),
       .respInternalError "error happened while ingesting data"]
    | none =>
      [.acquireBuf, .parseBody, .releaseBuf, .storagePut (putInputOf c r ip),
       .statsInc "ingest", .statsInc ("ingest:" ++ ip.spyName),
       .appStatsAdd (c.hashString ip.storageKey.appName)]

/-- ingestHandler, lines 60-96: resolve parameters, rejecting immediately on
failure, otherwise run the parse/store/count pipeline. -/
def ingestHandler (c : Controller) (r : Request) : List Event :=
  match (ingestParamsFromRequest c r).result with
  | .error e => [.respInvalidParam e]
  | .ok ip => handleWithParams c r ip

/-- Event discriminators used to state trace properties. -/
def Event.isAcquire : Event → Bool
  | .acquireBuf => true
  | _ => false

def Event.isRelease : Event → Bool
  | .releaseBuf => true
  | _ => false

def Event.isStoragePut : Event → Bool
  | .storagePut _ => true
  | _ => false

def Event.isUnprocessable : Event → Bool
  | .respUnprocessable _ => true
  | _ => false

def Event.isCounter : Event → Bool
  | .statsInc _ => true
  | .appStatsAdd _ => true
  | _ => false

def Event.isErrorResponse : Event → Bool
  | .respInvalidParam _ => true
  | .respUnprocessable _ => true
  | .respInternalError _ => true
  | _ => false

/-- Folding the insert callback over a delivered pair list appends the
uint64-converted pairs to the accumulated tree. -/
theorem foldl_treeInsert (ps : List (Key × Int)) (t : Tree) :
    ps.foldl (fun t p => treeInsert t p.1 p.2) t =
      t ++ ps.map (fun p => (p.1, uint64cast p.2)) := by
  induction ps generalizing t with
  | nil => simp
  | cons p ps ih =>
    rw [List.foldl_cons, ih]
    simp [treeInsert, Tree.insert]

/-- The tree an adapter builds is exactly the delivered pairs with counts
converted by uint64(). -/
theorem buildTree_eq_map (ps : List (Key × Int)) :
    buildTree ps = ps.map (fun p => (p.1, uint64cast p.2)) := by
  simp [buildTree, foldl_treeInsert, Tree.new]

/-- When segment.ParseKey fails on the name parameter, resolution returns
the wrapped error and only the sampleRate logs. -/
theorem resolve_error (c : Controller) (r : Request) (e : String)
    (hk : c.parseKey (r.query "name") = .error e) :
    ingestParamsFromRequest c r =
      ⟨(resolveSampleRate c (r.query "sampleRate")).2,
       .error ("name: " ++ e)⟩ := by
  simp only [ingestParamsFromRequest]
  rw [hk]

/-- The ingestParams a successful resolution returns for the parsed key k. -/
def resolvedParams (c : Controller) (r : Request) (k : SegKey) : IngestParams :=
  { selector := selectDecoder (r.query "format") r.contentType,
    storageKey := k,
    spyName := if r.query "spyName" ≠ "" then r.query "spyName" else "unknown",
    sampleRate := (resolveSampleRate c (r.query "sampleRate")).1,
    units := if r.query "units" ≠ "" then r.query "units" else "samples",
    aggregationType :=
      if r.query "aggregationType" ≠ "" then r.query "aggregationType" else "sum",
    modifiers := [],
    fromTime := if r.query "from" ≠ "" then c.attimeParse (r.query "from") else c.now1,
    untilTime := if r.query "until" ≠ "" then c.attimeParse (r.query "until") else c.now2 }

/-- When segment.ParseKey succeeds, resolution succeeds and every field of
the returned ingestParams is the documented resolution of its parameter. -/
theorem resolve_ok (c : Controller) (r : Request) (k : SegKey)
    (hk : c.parseKey (r.query "name") = .ok k) :
    ingestParamsFromRequest c r =
      ⟨(resolveSampleRate c (r.query "sampleRate")).2,
       .ok (resolvedParams c r k)⟩ := by
  simp only [ingestParamsFromRequest, resolvedParams]
  rw [hk]

/-- A decoder behaviour for witnesses: a trie decoder delivering one pair. -/
def sampleTrieDecoder : ConvertFuncBuf := fun _ _ => ⟨[([1, 2], 3)], none⟩

/-- A decoder behaviour for witnesses: a lines decoder delivering one pair. -/
def sampleLinesDecoder : ConvertFunc := fun _ => ⟨[([7], 1)], none⟩

/-- A decoder behaviour for witnesses: a direct-tree decoder. -/
def sampleTreeDecoder : ConvertFuncReader := fun _ => (some [([5], 5)], none)

/-- A decoder behaviour for witnesses: a groups decoder that fails after
delivering one pair. -/
def failingGroupsDecoder : ConvertFunc := fun _ => ⟨[([3], 4)], some "bad groups"⟩

/-- A decoder behaviour for witnesses: a trie decoder that fails after
delivering one pair. -/
def failingTrieDecoder : ConvertFuncBuf := fun _ _ => ⟨[([1], 2)], some "bad trie"⟩

/-- A controller for witnesses: the key parser rejects the empty string and
accepts anything else, storage accepts every write. -/
def sampleCtrl : Controller :=
  { treeDecoder := sampleTreeDecoder,
    trieDecoder := sampleTrieDecoder,
    linesDecoder := sampleLinesDecoder,
    groupsDecoder := sampleLinesDecoder,
    parseKey := fun s => if s = "" then .error "key required" else .ok ⟨s, s⟩,
    attimeParse := fun _ => 7,
    now1 := 1,
    now2 := 2,
    defaultSampleRate := 100,
    ingesterPut := fun _ => none,
    hashString := fun s => s.length,
    bufferPool := [0] }

/-- A controller for witnesses whose selected default decoder fails. -/
def failingDecodeCtrl : Controller :=
  { sampleCtrl with groupsDecoder := failingGroupsDecoder }

/-- A controller for witnesses whose storage ingester rejects every write. -/
def failingStoreCtrl : Controller :=
  { sampleCtrl with ingesterPut := fun _ => some "storage down" }

/-- A request for witnesses: only the name parameter is supplied. -/
def sampleReq : Request :=
  { query := fun p => if p = "name" then "app.name" else "",
    contentType := "",
    body := [] }

/-- A request for witnesses with no name parameter. -/
def noNameReq : Request :=
  { query := fun _ => "", contentType := "", body := [] }

/-- A request for witnesses with sampleRate=0. -/
def rateZeroReq : Request :=
  { query := fun p =>
      if p = "name" then "app.name" else if p = "sampleRate" then "0" else "",
    contentType := "",
    body := [] }

/-- A request for witnesses with an unparsable sampleRate. -/
def badRateReq : Request :=
  { query := fun p =>
      if p = "name" then "app.name" else if p = "sampleRate" then "notanumber" else "",
    contentType := "",
    body := [] }

/-- The decoder a format query value names, per the format tests of the
switch. -/
def formatNames (s : String) : Option DecoderSelector :=
  if s = "tree" then some .binaryTree
  else if s = "trie" then some .trie
  else if s = "lines" then some .lines
  else none

/-- The decoder a Content-Type header names, per the header tests of the
switch. -/
def contentTypeNames (s : String) : Option DecoderSelector :=
  if s = "binary/octet-stream+tree" then some .binaryTree
  else if s = "binary/octet-stream+trie" then some .trie
  else none

/-- Position of a decoder's case in the switch, first to last. -/
def caseIndex : DecoderSelector → Nat
  | .binaryTree => 0
  | .trie => 1
  | .lines => 2
  | .groups => 3

/-- C2: the decoder is selected by first match over the ordered case list:
format=tree or the tree content-type, then format=trie or the trie
content-type, then format=lines, then the groups default; and the resolver
records exactly that selection. -/
theorem decoder_selection_first_match (c : Controller) (r : Request) :
    (∀ format ct : String,
      ((format = "tree" ∨ ct = "binary/octet-stream+tree") →
        selectDecoder format ct = DecoderSelector.binaryTree) ∧
      (¬(format = "tree" ∨ ct = "binary/octet-stream+tree") →
        (format = "trie" ∨ ct = "binary/octet-stream+trie") →
        selectDecoder format ct = DecoderSelector.trie) ∧
      (¬(format = "tree" ∨ ct = "binary/octet-stream+tree") →
        ¬(format = "trie" ∨ ct = "binary/octet-stream+trie") →
        format = "lines" → selectDecoder format ct = DecoderSelector.lines) ∧
      (¬(format = "tree" ∨ ct = "binary/octet-stream+tree") →
        ¬(format = "trie" ∨ ct = "binary/octet-stream+trie") →
        format ≠ "lines" → selectDecoder format ct = DecoderSelector.groups)) ∧
    ∀ ip, (ingestParamsFromRequest c r).result = Except.ok ip →
      ip.selector = selectDecoder (r.query "format") r.contentType := by
  constructor
  · intro format ct
    refine ⟨fun h1 => ?_, fun h1 h2 => ?_, fun h1 h2 h3 => ?_, fun h1 h2 h3 => ?_⟩ <;>
      unfold selectDecoder
    · rw [if_pos h1]
    · rw [if_neg h1, if_pos h2]
    · rw [if_neg h1, if_neg h2, if_pos h3]
    · rw [if_neg h1, if_neg h2, if_neg h3]
  · intro ip hip
    rcases hp : c.parseKey (r.query "name") with e | k
    · rw [resolve_error c r e hp] at hip
      exact absurd hip (by simp)
    · rw [resolve_ok c r k hp] at hip
      simp only [Except.ok.injEq] at hip
      subst hip
      rfl

/-- Witness for C2 at concrete selector inputs. -/
theorem decoder_selection_first_match_witness :
    selectDecoder "trie" "" = DecoderSelector.trie ∧
    selectDecoder "" "binary/octet-stream+tree" = DecoderSelector.binaryTree :=
  ⟨((decoder_selection_first_match sampleCtrl sampleReq).1 "trie" "").2.1
      (by decide) (Or.inl rfl),
   ((decoder_selection_first_match sampleCtrl sampleReq).1 "" "binary/octet-stream+tree").1
      (Or.inr rfl)⟩

/-- C5 counterexample: format=trie names the trie decoder while the
Content-Type names the binary-tree decoder, and the binary-tree decoder is
selected, so the format parameter does not take precedence. -/
theorem content_type_overrides_format_cex :
    formatNames "trie" = some DecoderSelector.trie ∧
    contentTypeNames "binary/octet-stream+tree" = some DecoderSelector.binaryTree ∧
    selectDecoder "trie" "binary/octet-stream+tree" = DecoderSelector.binaryTree ∧
    DecoderSelector.binaryTree ≠ DecoderSelector.trie := by decide

/-- C5 amended: when only the format parameter names a decoder it wins, when
only the Content-Type names one it wins, when both name one the decoder of
the earlier switch case wins, and when neither names one the groups default
is selected. -/
theorem decoder_selection_case_order (format ct : String) :
    (∀ df, formatNames format = some df → contentTypeNames ct = none →
      selectDecoder format ct = df) ∧
    (∀ dc, formatNames format = none → contentTypeNames ct = some dc →
      selectDecoder format ct = dc) ∧
    (∀ df dc, formatNames format = some df → contentTypeNames ct = some dc →
      selectDecoder format ct = if caseIndex df ≤ caseIndex dc then df else dc) ∧
    (formatNames format = none → contentTypeNames ct = none →
      selectDecoder format ct = DecoderSelector.groups) := by
  by_cases h1 : format = "tree" <;> by_cases h2 : format = "trie" <;>
    by_cases h3 : format = "lines" <;> by_cases h4 : ct = "binary/octet-stream+tree" <;>
    by_cases h5 : ct = "binary/octet-stream+trie" <;>
    simp_all [formatNames, contentTypeNames, selectDecoder, caseIndex]

/-- Witness for the amended C5: both selectors name a decoder and the
earlier case wins. -/
theorem decoder_selection_case_order_witness :
    selectDecoder "trie" "binary/octet-stream+tree" =
      if caseIndex DecoderSelector.trie ≤ caseIndex DecoderSelector.binaryTree
      then DecoderSelector.trie else DecoderSelector.binaryTree :=
  (decoder_selection_case_order "trie" "binary/octet-stream+tree").2.2.1
    DecoderSelector.trie DecoderSelector.binaryTree (by decide) (by decide)

/-- C7: the callback-with-buffer adapter returns a fresh tree holding every
delivered pair and forwards the caller's buffer; the callback-without-buffer
adapter does the same but its result never depends on the buffer; the
direct-tree adapter passes the stream through, discards the buffer and
returns exactly the decoder's tree and error. -/
theorem wrap_adapters_normalize (f : ConvertFuncBuf) (g : ConvertFunc)
    (h : ConvertFuncReader) (r : ByteStream) (buf buf' : Buf) :
    wrapConvertFunctionBuf f r buf = (some (buildTree (f r buf).pairs), (f r buf).err) ∧
    buildTree (f r buf).pairs = (f r buf).pairs.map (fun p => (p.1, uint64cast p.2)) ∧
    wrapConvertFunction g r buf = (some (buildTree (g r).pairs), (g r).err) ∧
    buildTree (g r).pairs = (g r).pairs.map (fun p => (p.1, uint64cast p.2)) ∧
    wrapConvertFunction g r buf = wrapConvertFunction g r buf' ∧
    wrapConvertFunctionReader h r buf = h r :=
  ⟨rfl, buildTree_eq_map _, rfl, buildTree_eq_map _, rfl, rfl⟩

/-- Witness for C7 at concrete decoders and inputs. -/
theorem wrap_adapters_normalize_witness :
    wrapConvertFunctionBuf sampleTrieDecoder [0] [9] =
      (some (buildTree (sampleTrieDecoder [0] [9]).pairs),
       (sampleTrieDecoder [0] [9]).err) ∧
    wrapConvertFunctionReader sampleTreeDecoder [0] [9] = sampleTreeDecoder [0] :=
  ⟨(wrap_adapters_normalize sampleTrieDecoder sampleLinesDecoder sampleTreeDecoder
      [0] [9] []).1,
   (wrap_adapters_normalize sampleTrieDecoder sampleLinesDecoder sampleTreeDecoder
      [0] [9] []).2.2.2.2.2⟩

/-- C10: even when a callback decoder fails, both callback adapters return a
non-nil fresh tree holding every pair delivered before the failure, together
with the error. -/
theorem wrap_callback_partial_tree (f : ConvertFuncBuf) (g : ConvertFunc)
    (r : ByteStream) (buf : Buf) (e : String) :
    ((f r buf).err = some e →
      wrapConvertFunctionBuf f r buf = (some (buildTree (f r buf).pairs), some e) ∧
      ∀ p ∈ (f r buf).pairs, (p.1, uint64cast p.2) ∈ buildTree (f r buf).pairs) ∧
    ((g r).err = some e →
      wrapConvertFunction g r buf = (some (buildTree (g r).pairs), some e) ∧
      ∀ p ∈ (g r).pairs, (p.1, uint64cast p.2) ∈ buildTree (g r).pairs) := by
  constructor
  · intro h
    refine ⟨by simp [wrapConvertFunctionBuf, h], ?_⟩
    intro p hp
    rw [buildTree_eq_map]
    exact List.mem_map.mpr ⟨p, hp, rfl⟩
  · intro h
    refine ⟨by simp [wrapConvertFunction, h], ?_⟩
    intro p hp
    rw [buildTree_eq_map]
    exact List.mem_map.mpr ⟨p, hp, rfl⟩

/-- Witness for C10 at concrete failing decoders. -/
theorem wrap_callback_partial_tree_witness :
    wrapConvertFunctionBuf failingTrieDecoder [] [] =
      (some (buildTree (failingTrieDecoder [] []).pairs), some "bad trie") ∧
    wrapConvertFunction failingGroupsDecoder [] [] =
      (some (buildTree (failingGroupsDecoder []).pairs), some "bad groups") :=
  ⟨((wrap_callback_partial_tree failingTrieDecoder failingGroupsDecoder [] []
      "bad trie").1 rfl).1,
   ((wrap_callback_partial_tree failingTrieDecoder failingGroupsDecoder [] []
      "bad groups").2 rfl).1⟩

/-- The logged messages of a resolution are exactly the sampleRate logs,
whatever the key parser does. -/
theorem resolve_logs (c : Controller) (r : Request) :
    (ingestParamsFromRequest c r).logs =
      (resolveSampleRate c (r.query "sampleRate")).2 := by
  rcases hp : c.parseKey (r.query "name") with e | k
  · rw [resolve_error c r e hp]
  · rw [resolve_ok c r k hp]

/-- A present but unparsable sampleRate yields the default and one log line. -/
theorem resolveSampleRate_bad (c : Controller) (sr : String) (hne : sr ≠ "")
    (hbad : atoi sr = none) :
    resolveSampleRate c sr =
      (c.defaultSampleRate, ["invalid sample rate: " ++ sr]) := by
  simp [resolveSampleRate, hne, hbad]

/-- An absent sampleRate yields the default and no log line. -/
theorem resolveSampleRate_absent (c : Controller) :
    resolveSampleRate c "" = (c.defaultSampleRate, []) := by
  simp [resolveSampleRate]

/-- A sampleRate that parses yields its uint32 truncation and no log line. -/
theorem resolveSampleRate_parsed (c : Controller) (sr : String) (z : Int)
    (hne : sr ≠ "") (hz : atoi sr = some z) :
    resolveSampleRate c sr = (uint32cast z, []) := by
  simp [resolveSampleRate, hne, hz]

/-- Every successfully resolved ingestParams carries the sample rate
computed by resolveSampleRate. -/
theorem resolve_sampleRate_field (c : Controller) (r : Request)
    (ip : IngestParams)
    (hip : (ingestParamsFromRequest c r).result = Except.ok ip) :
    ip.sampleRate = (resolveSampleRate c (r.query "sampleRate")).1 := by
  rcases hp : c.parseKey (r.query "name") with e | k
  · rw [resolve_error c r e hp] at hip
    exact absurd hip (by simp)
  · rw [resolve_ok c r k hp] at hip
    simp only [Except.ok.injEq] at hip
    subst hip
    rfl

/-- C3: when the key parser rejects the name parameter the resolver fails
with the wrapped error naming name, the handler answers only the
invalid-parameter response (no buffer acquisition, decode or storage call),
and resolution succeeds whenever the key parser accepts, so name is the only
parameter whose invalidity aborts the request. -/
theorem name_failure_aborts (c : Controller) (r : Request) :
    (∀ e, c.parseKey (r.query "name") = Except.error e →
      (ingestParamsFromRequest c r).result = Except.error ("name: " ++ e) ∧
      ingestHandler c r = [Event.respInvalidParam ("name: " ++ e)]) ∧
    (∀ k, c.parseKey (r.query "name") = Except.ok k →
      ∃ ip, (ingestParamsFromRequest c r).result = Except.ok ip ∧
        ip.storageKey = k) := by
  constructor
  · intro e he
    have hres := resolve_error c r e he
    have h1 : (ingestParamsFromRequest c r).result = Except.error ("name: " ++ e) := by
      rw [hres]
    refine ⟨h1, ?_⟩
    simp only [ingestHandler, h1]
  · intro k hk
    refine ⟨resolvedParams c r k, ?_, rfl⟩
    rw [resolve_ok c r k hk]

/-- Witness for C3: a request with no name parameter is rejected with the
wrapped error and nothing else happens. -/
theorem name_failure_aborts_witness :
    (ingestParamsFromRequest sampleCtrl noNameReq).result =
      Except.error ("name: " ++ "key required") ∧
    ingestHandler sampleCtrl noNameReq =
      [Event.respInvalidParam ("name: " ++ "key required")] :=
  (name_failure_aborts sampleCtrl noNameReq).1 "key required" rfl

/-- C4: a present but unparsable sampleRate never rejects the request: the
parse error is logged and the default substituted, and an absent sampleRate
also takes the default. -/
theorem sampleRate_lenient (c : Controller) (r : Request) :
    (r.query "sampleRate" ≠ "" → atoi (r.query "sampleRate") = none →
      (ingestParamsFromRequest c r).logs =
        ["invalid sample rate: " ++ r.query "sampleRate"] ∧
      ∀ k, c.parseKey (r.query "name") = Except.ok k →
        ∃ ip, (ingestParamsFromRequest c r).result = Except.ok ip ∧
          ip.sampleRate = c.defaultSampleRate) ∧
    (r.query "sampleRate" = "" →
      ∀ ip, (ingestParamsFromRequest c r).result = Except.ok ip →
        ip.sampleRate = c.defaultSampleRate) := by
  constructor
  · intro hne hbad
    have hsr := resolveSampleRate_bad c (r.query "sampleRate") hne hbad
    constructor
    · rw [resolve_logs, hsr]
    · intro k hk
      refine ⟨resolvedParams c r k, ?_, ?_⟩
      · rw [resolve_ok c r k hk]
      · show (resolveSampleRate c (r.query "sampleRate")).1 = c.defaultSampleRate
        rw [hsr]
  · intro habs ip hip
    rw [resolve_sampleRate_field c r ip hip, habs, resolveSampleRate_absent]

/-- Witness for C4: sampleRate=notanumber is logged and defaulted while the
request still resolves. -/
theorem sampleRate_lenient_witness :
    (ingestParamsFromRequest sampleCtrl badRateReq).logs =
      ["invalid sample rate: " ++ badRateReq.query "sampleRate"] ∧
    ∃ ip, (ingestParamsFromRequest sampleCtrl badRateReq).result = Except.ok ip ∧
      ip.sampleRate = sampleCtrl.defaultSampleRate := by
  have h := (sampleRate_lenient sampleCtrl badRateReq).1 (by decide) (by decide)
  exact ⟨h.1, h.2 ⟨"app.name", "app.name"⟩ rfl⟩

/-- C6 counterexample: sampleRate=0 resolves successfully to sample rate 0,
which is neither positive nor the system default. -/
theorem sampleRate_zero_cex :
    ((ingestParamsFromRequest sampleCtrl rateZeroReq).result.map
        (fun ip => ip.sampleRate)) = Except.ok 0 ∧
    ¬ 0 < (0 : Nat) ∧ sampleCtrl.defaultSampleRate = 100 :=
  ⟨rfl, by decide, rfl⟩

/-- C6 amended: the resolved sampleRate is the uint32 truncation of the
parsed integer whenever the supplied value parses as an integer (zero and
negative values are carried through, so the result need not be positive);
the default is substituted exactly when the value is absent or unparsable. -/
theorem sampleRate_resolved_value (c : Controller) (r : Request) :
    (∀ z, r.query "sampleRate" ≠ "" → atoi (r.query "sampleRate") = some z →
      ∀ ip, (ingestParamsFromRequest c r).result = Except.ok ip →
        ip.sampleRate = uint32cast z) ∧
    (r.query "sampleRate" ≠ "" → atoi (r.query "sampleRate") = none →
      ∀ ip, (ingestParamsFromRequest c r).result = Except.ok ip →
        ip.sampleRate = c.defaultSampleRate) ∧
    (r.query "sampleRate" = "" →
      ∀ ip, (ingestParamsFromRequest c r).result = Except.ok ip →
        ip.sampleRate = c.defaultSampleRate) := by
  refine ⟨?_, ?_, ?_⟩
  · intro z hne hz ip hip
    rw [resolve_sampleRate_field c r ip hip,
      resolveSampleRate_parsed c (r.query "sampleRate") z hne hz]
  · intro hne hbad ip hip
    rw [resolve_sampleRate_field c r ip hip,
      resolveSampleRate_bad c (r.query "sampleRate") hne hbad]
  · intro habs ip hip
    rw [resolve_sampleRate_field c r ip hip, habs, resolveSampleRate_absent]

/-- Witness for the amended C6: sampleRate=0 is carried through as uint32 0. -/
theorem sampleRate_resolved_value_witness :
    ∃ ip, (ingestParamsFromRequest sampleCtrl rateZeroReq).result = Except.ok ip ∧
      ip.sampleRate = uint32cast 0 := by
  refine ⟨_, rfl, ?_⟩
  exact (sampleRate_resolved_value sampleCtrl rateZeroReq).1 0 (by decide)
    (by decide) _ rfl

/-- C1: whenever the handler acquires a scratch buffer it releases it
exactly once, on every exit path, and the release precedes any storage
submission and any unprocessable response. -/
theorem buffer_released_once (c : Controller) (r : Request)
    (h : Event.acquireBuf ∈ ingestHandler c r) :
    (ingestHandler c r).countP Event.isAcquire = 1 ∧
    (ingestHandler c r).countP Event.isRelease = 1 ∧
    ((ingestHandler c r).takeWhile (fun e => !e.isRelease)).countP
      Event.isStoragePut = 0 ∧
    ((ingestHandler c r).takeWhile (fun e => !e.isRelease)).countP
      Event.isUnprocessable = 0 := by
  rcases hres : (ingestParamsFromRequest c r).result with e | ip
  · rw [show ingestHandler c r = [Event.respInvalidParam e] by
      simp only [ingestHandler, hres]] at h
    simp at h
  · have hh : ingestHandler c r = handleWithParams c r ip := by
      simp only [ingestHandler, hres]
    rw [hh]
    unfold handleWithParams
    split
    · simp [List.countP_cons, List.countP_nil, List.takeWhile, Event.isAcquire,
        Event.isRelease, Event.isStoragePut, Event.isUnprocessable]
    · split <;>
        simp [List.countP_cons, List.countP_nil, List.takeWhile, Event.isAcquire,
          Event.isRelease, Event.isStoragePut, Event.isUnprocessable]

/-- Witness for C1 on a successfully handled request. -/
theorem buffer_released_once_witness :
    Event.acquireBuf ∈ ingestHandler sampleCtrl sampleReq ∧
    ((ingestHandler sampleCtrl sampleReq).countP Event.isAcquire = 1 ∧
     (ingestHandler sampleCtrl sampleReq).countP Event.isRelease = 1 ∧
     ((ingestHandler sampleCtrl sampleReq).takeWhile (fun e => !e.isRelease)).countP
       Event.isStoragePut = 0 ∧
     ((ingestHandler sampleCtrl sampleReq).takeWhile (fun e => !e.isRelease)).countP
       Event.isUnprocessable = 0) :=
  have hm : Event.acquireBuf ∈ ingestHandler sampleCtrl sampleReq := by decide
  ⟨hm, buffer_released_once sampleCtrl sampleReq hm⟩

/-- C8: when parameters resolve but the body fails to decode under the
selected decoder, the handler answers the unprocessable response with its
descriptive message and submits no storage write. -/
theorem decode_failure_unprocessable (c : Controller) (r : Request)
    (ip : IngestParams) (e : String)
    (hres : (ingestParamsFromRequest c r).result = Except.ok ip)
    (hperr : (parserFuncOf c ip.selector r.body c.bufferPool).2 = some e) :
    ingestHandler c r =
      [Event.acquireBuf, Event.parseBody, Event.releaseBuf,
       Event.respUnprocessable "error happened while parsing request body"] ∧
    ∀ i, Event.storagePut i ∉ ingestHandler c r := by
  have htr : ingestHandler c r =
      [Event.acquireBuf, Event.parseBody, Event.releaseBuf,
       Event.respUnprocessable "error happened while parsing request body"] := by
    simp only [ingestHandler, hres, handleWithParams, hperr]
  refine ⟨htr, ?_⟩
  intro i
  rw [htr]
  simp

/-- Witness for C8: a failing default decoder leads to the unprocessable
trace. -/
theorem decode_failure_unprocessable_witness :
    ingestHandler failingDecodeCtrl sampleReq =
      [Event.acquireBuf, Event.parseBody, Event.releaseBuf,
       Event.respUnprocessable "error happened while parsing request body"] :=
  (decode_failure_unprocessable failingDecodeCtrl sampleReq
    (resolvedParams failingDecodeCtrl sampleReq ⟨"app.name", "app.name"⟩)
    "bad groups" rfl rfl).1

/-- C9: the three ingestion counters are bumped exactly on overall success:
none on parameter-resolution failure, decode failure or storage-write
failure, and on success exactly the global counter, the per-agent counter
and the per-application hash counter, in that order. -/
theorem counters_iff_success (c : Controller) (r : Request) :
    (∀ e, (ingestParamsFromRequest c r).result = Except.error e →
      (ingestHandler c r).countP Event.isCounter = 0) ∧
    (∀ ip e, (ingestParamsFromRequest c r).result = Except.ok ip →
      (parserFuncOf c ip.selector r.body c.bufferPool).2 = some e →
      (ingestHandler c r).countP Event.isCounter = 0) ∧
    (∀ ip e, (ingestParamsFromRequest c r).result = Except.ok ip →
      (parserFuncOf c ip.selector r.body c.bufferPool).2 = none →
      c.ingesterPut (putInputOf c r ip) = some e →
      (ingestHandler c r).countP Event.isCounter = 0) ∧
    (∀ ip, (ingestParamsFromRequest c r).result = Except.ok ip →
      (parserFuncOf c ip.selector r.body c.bufferPool).2 = none →
      c.ingesterPut (putInputOf c r ip) = none →
      (ingestHandler c r).filter Event.isCounter =
        [Event.statsInc "ingest", Event.statsInc ("ingest:" ++ ip.spyName),
         Event.appStatsAdd (c.hashString ip.storageKey.appName)]) := by
  refine ⟨?_, ?_, ?_, ?_⟩
  · intro e hres
    simp [ingestHandler, hres, Event.isCounter, List.countP_cons, List.countP_nil]
  · intro ip e hres hperr
    simp [ingestHandler, hres, handleWithParams, hperr, Event.isCounter,
      List.countP_cons, List.countP_nil]
  · intro ip e hres hperr hput
    simp [ingestHandler, hres, handleWithParams, hperr, hput, Event.isCounter,
      List.countP_cons, List.countP_nil]
  · intro ip hres hperr hput
    simp [ingestHandler, hres, handleWithParams, hperr, hput, Event.isCounter,
      List.filter]

/-- Witness for C9 on a successfully handled request. -/
theorem counters_iff_success_witness :
    (ingestHandler sampleCtrl sampleReq).filter Event.isCounter =
      [Event.statsInc "ingest", Event.statsInc ("ingest:" ++ "unknown"),
       Event.appStatsAdd (sampleCtrl.hashString "app.name")] :=
  (counters_iff_success sampleCtrl sampleReq).2.2.2
    (resolvedParams sampleCtrl sampleReq ⟨"app.name", "app.name"⟩) rfl rfl rfl

end Ingest
